import Mathlib

/-!
Shallow embedding of the `Raffle` smart contract
(hardhat-smartcontract-lottery, `contracts/Raffle.sol`).

Addresses are modelled as natural numbers (the zero address is `0`);
`uint256` amounts and timestamps are natural numbers — none of the
quantities here can overflow 2^256 in the scenarios the contract's own
arithmetic produces (lengths of stored arrays, balances accumulated from
entry fees, block timestamps), and Solidity 0.8 checked arithmetic means
any would-be wrap reverts, which we model as a revert reason where it can
occur.  A reverted call is modelled as `Except.error`: the caller keeps
the pre-call state (EVM rollback semantics), so a revert mutates nothing.
-/

namespace RaffleContract

/-- `enum RaffleState { OPEN, CALCULATING }` from the source. -/
inductive RState where
  | OPEN
  | CALCULATING
deriving DecidableEq, Repr

/-- `uint256(s_raffleState)`: OPEN = 0, CALCULATING = 1. -/
def RState.toUint : RState → Nat
  | .OPEN => 0
  | .CALCULATING => 1

/-- Revert reasons of the contract.  The first four are the custom errors
declared at the top of `Raffle.sol`; `requireNoPlayers` is the
`require(s_players.length > 0, "No players participated!")` failure in
`getPlayer`; `panicArrayOOB` is Solidity's implicit out-of-bounds panic
(code 0x32) on array indexing; `panicDivModZero` is the implicit
division/modulo-by-zero panic (code 0x12). -/
inductive Revert where
  | notEnoughETHEntered
  | transferFailed
  | notOpen
  | upkeepNotNeeded (currentBalance numPlayers raffleState passedTime : Nat)
  | requireNoPlayers
  | panicArrayOOB
  | panicDivModZero
deriving DecidableEq, Repr

/-- The contract's storage together with its immutable configuration and
its ether balance (`address(this).balance`).  Field names follow the
source (`i_` immutable, `s_` storage). -/
structure Raffle where
  i_entranceFee : Nat
  i_interval : Nat
  s_players : List Nat
  s_recentWinner : Nat
  s_raffleState : RState
  s_lastTimeStamp : Nat
  balance : Nat
deriving DecidableEq, Repr

/-- The constructor: phase OPEN, no players, `s_recentWinner` left at the
default zero address, `s_lastTimeStamp = block.timestamp` at deployment,
zero balance. -/
def deployRaffle (entranceFee interval deployTime : Nat) : Raffle :=
  { i_entranceFee := entranceFee
    i_interval := interval
    s_players := []
    s_recentWinner := 0
    s_raffleState := .OPEN
    s_lastTimeStamp := deployTime
    balance := 0 }

/-- `enterRaffle()` called by `sender` with `msg.value = value`.  The EVM
credits `msg.value` to the contract before the body runs; a revert returns
it, so only the success branch keeps the increased balance. -/
def enterRaffle (s : Raffle) (sender value : Nat) : Except Revert Raffle :=
  if value < s.i_entranceFee then .error .notEnoughETHEntered
  else if s.s_raffleState = .CALCULATING then .error .notOpen
  else .ok { s with s_players := s.s_players ++ [sender],
                    balance := s.balance + value }

/-- `checkUpkeep`, evaluated at wall-clock time `now = block.timestamp`.
A view function: in the embedding it is a pure function of the state, so
it can mutate nothing by construction.  `block.timestamp ≥ s_lastTimeStamp`
holds on-chain (the stored value is a past block's timestamp); under that
assumption Lean's truncating `Nat` subtraction agrees with Solidity's
checked subtraction. -/
def checkUpkeep (s : Raffle) (now : Nat) : Bool :=
  (s.s_raffleState = .OPEN) ∧ (now - s.s_lastTimeStamp > s.i_interval) ∧
    (s.s_players.length > 0) ∧ (s.balance > 0)

/-- `performUpkeep` at time `now`.  The coordinator's reply to
`i_vrfCoordinator.requestRandomWords(...)` is the parameter `requestId`.
The second component records whether the randomness oracle was contacted
(the `requestRandomWords` external call is only reached after the
readiness re-check passes). -/
def performUpkeep (s : Raffle) (now _requestId : Nat) :
    Except Revert Raffle × Bool :=
  if checkUpkeep s now then
    (.ok { s with s_raffleState := .CALCULATING }, true)
  else
    (.error (.upkeepNotNeeded s.balance s.s_players.length
      s.s_raffleState.toUint (now - s.s_lastTimeStamp)), false)

/-- A payout performed by `payable(to).call{value: amount}("")`. -/
structure Payout where
  recipient : Nat
  amount : Nat
deriving DecidableEq, Repr

/-- `fulfillRandomWords(_requestId, _randomWords)` at time `now`.  The
source ignores `_requestId` (the parameter is commented out).  Whether the
low-level transfer to the winner succeeds depends on the recipient, so it
is the external parameter `transferOk`; on success the result also carries
the payout made (the entire contract balance to the winner).
`_randomWords[0]` on an empty array is an out-of-bounds panic and
`% s_players.length` with no players is a modulo-by-zero panic. -/
def fulfillRandomWords (s : Raffle) (_requestId : Nat)
    (_randomWords : List Nat) (transferOk : Bool) (now : Nat) :
    Except Revert (Raffle × Payout) :=
  match _randomWords with
  | [] => .error .panicArrayOOB
  | r :: _ =>
    if h : s.s_players.length = 0 then .error .panicDivModZero
    else
      let indexOfWinner := r % s.s_players.length
      let winner := s.s_players.get
        ⟨indexOfWinner, Nat.mod_lt r (Nat.pos_of_ne_zero h)⟩
      if transferOk then
        .ok ({ s with s_recentWinner := winner,
                      s_players := [],
                      s_lastTimeStamp := now,
                      s_raffleState := .OPEN,
                      balance := 0 },
             ⟨winner, s.balance⟩)
      else .error .transferFailed

/-- `getPlayer(_idx)`: the `require` guards against an empty list, then
the array access itself panics when the index is out of range. -/
def getPlayer (s : Raffle) (idx : Nat) : Except Revert Nat :=
  if s.s_players.length = 0 then .error .requireNoPlayers
  else if h : idx < s.s_players.length then .ok (s.s_players.get ⟨idx, h⟩)
  else .error .panicArrayOOB

/-- `getRecentWinner()`: a total read of the stored field. -/
def getRecentWinner (s : Raffle) : Nat :=
  s.s_recentWinner

/-! ### Transition system

External parties can invoke `enterRaffle`, `performUpkeep` and (via the
VRF coordinator) `fulfillRandomWords`.  A reverted call leaves the state
unchanged. -/

/-- One external interaction with the contract. -/
inductive Act where
  | enter (sender value : Nat)
  | trigger (now requestId : Nat)
  | resolve (requestId : Nat) (randomWords : List Nat)
      (transferOk : Bool) (now : Nat)
deriving Repr

/-- The state after one interaction: the new state on success, the old
state when the call reverted. -/
def stepRaffle (s : Raffle) : Act → Raffle
  | .enter sender value =>
    match enterRaffle s sender value with
    | .ok s' => s'
    | .error _ => s
  | .trigger now rid =>
    match (performUpkeep s now rid).1 with
    | .ok s' => s'
    | .error _ => s
  | .resolve rid words ok now =>
    match fulfillRandomWords s rid words ok now with
    | .ok (s', _) => s'
    | .error _ => s

/-- States reachable from `init` by any sequence of interactions. -/
inductive Reachable (init : Raffle) : Raffle → Prop where
  | refl : Reachable init init
  | step {s : Raffle} (a : Act) : Reachable init s →
      Reachable init (stepRaffle s a)

/-- Running a trace of interactions. -/
def runTrace (s : Raffle) : List Act → Raffle
  | [] => s
  | a :: rest => runTrace (stepRaffle s a) rest

/-- The winner recorded by the most recent successful resolve in the
trace, if any. -/
def lastWinner (s : Raffle) : List Act → Option Nat
  | [] => none
  | a :: rest =>
    match lastWinner (stepRaffle s a) rest with
    | some w => some w
    | none =>
      match a with
      | .resolve rid words ok now =>
        match fulfillRandomWords s rid words ok now with
        | .ok (_, p) => some p.recipient
        | .error _ => none
      | _ => none

end RaffleContract

namespace RaffleContract

/-! ### Helper lemmas (shared) -/

/-- A successful `enterRaffle` appends the sender and adds the paid value
to the balance, leaving every other field alone. -/
theorem enterRaffle_ok_eq (s : Raffle) (sender value : Nat) (s' : Raffle)
    (h : enterRaffle s sender value = .ok s') :
    s' = { s with s_players := s.s_players ++ [sender],
                  balance := s.balance + value } := by
  unfold enterRaffle at h
  split_ifs at h
  exact ((Except.ok.injEq _ _).mp h).symm

/-- A successful resolve records the payout recipient as the new
`s_recentWinner`. -/
theorem fulfill_ok_recentWinner (s : Raffle) (rid : Nat) (words : List Nat)
    (ok : Bool) (now : Nat) (s' : Raffle) (p : Payout)
    (h : fulfillRandomWords s rid words ok now = .ok (s', p)) :
    s'.s_recentWinner = p.recipient := by
  unfold fulfillRandomWords at h
  split at h
  · exact absurd h (by simp)
  · split at h
    · exact absurd h (by simp)
    · dsimp only at h
      split at h
      · simp only [Except.ok.injEq, Prod.mk.injEq] at h
        obtain ⟨hs, hp⟩ := h
        subst hs hp
        rfl
      · exact absurd h (by simp)

end RaffleContract

namespace RaffleContract

/-- Full characterisation of a successful resolve: the new state and the
payout. -/
theorem fulfill_ok_char (s : Raffle) (rid : Nat) (words : List Nat)
    (ok : Bool) (now : Nat) (s' : Raffle) (p : Payout)
    (h : fulfillRandomWords s rid words ok now = .ok (s', p)) :
    s' = { s with s_recentWinner := p.recipient, s_players := [],
                  s_lastTimeStamp := now, s_raffleState := .OPEN,
                  balance := 0 } ∧ p.amount = s.balance := by
  unfold fulfillRandomWords at h
  split at h
  · exact absurd h (by simp)
  · split at h
    · exact absurd h (by simp)
    · dsimp only at h
      split at h
      · simp only [Except.ok.injEq, Prod.mk.injEq] at h
        obtain ⟨hs, hp⟩ := h
        subst hs hp
        exact ⟨rfl, rfl⟩
      · exact absurd h (by simp)

/-- A successful `performUpkeep` only flips the phase to CALCULATING, and
only fires when the readiness check passed. -/
theorem performUpkeep_ok_eq (s : Raffle) (now rid : Nat) (s' : Raffle)
    (h : (performUpkeep s now rid).1 = .ok s') :
    s' = { s with s_raffleState := .CALCULATING } ∧
      checkUpkeep s now = true := by
  unfold performUpkeep at h
  split at h
  · exact ⟨((Except.ok.injEq _ _).mp h).symm, ‹_›⟩
  · exact absurd h (by simp)

/-- C1: for every player list of length n > 0 and every random value R, a
successful resolve selects the winner `players[R mod n]`, pays the entire
pool balance to that winner, records the winner in `s_recentWinner`,
clears the players, stamps `s_lastTimeStamp` with the current time and
sets the phase back to OPEN. -/
theorem C1_fulfill_success (s : Raffle) (rid R now : Nat)
    (h : 0 < s.s_players.length) :
    fulfillRandomWords s rid [R] true now =
      .ok ({ s with
              s_recentWinner :=
                s.s_players.get ⟨R % s.s_players.length, Nat.mod_lt R h⟩,
              s_players := [],
              s_lastTimeStamp := now,
              s_raffleState := .OPEN,
              balance := 0 },
           ⟨s.s_players.get ⟨R % s.s_players.length, Nat.mod_lt R h⟩,
            s.balance⟩) := by
  simp only [fulfillRandomWords]
  rw [dif_neg (Nat.pos_iff_ne_zero.mp h)]
  simp

/-- A concrete CALCULATING state: three players, pool of 300. -/
def w1State : Raffle :=
  { i_entranceFee := 100, i_interval := 30, s_players := [7, 8, 9],
    s_recentWinner := 0, s_raffleState := .CALCULATING,
    s_lastTimeStamp := 0, balance := 300 }

/-- C1 witness: with players [7, 8, 9] and random value 5, the winner is
index 5 mod 3 = 2, i.e. player 9, who is paid the whole pool of 300. -/
theorem C1_fulfill_success_witness :
    fulfillRandomWords w1State 1 [5] true 40 =
      .ok ({ i_entranceFee := 100, i_interval := 30, s_players := [],
             s_recentWinner := 9, s_raffleState := .OPEN,
             s_lastTimeStamp := 40, balance := 0 },
           ⟨9, 300⟩) :=
  C1_fulfill_success w1State 1 5 40 (by decide)

/-- C2: `checkUpkeep` returns true iff the phase is OPEN, strictly more
than `i_interval` seconds have elapsed since `s_lastTimeStamp`, there is
at least one player and the pool balance is positive.  It is a pure
function of the state and the clock (its Lean type `Raffle → Nat → Bool`
is the statement that it mutates nothing). -/
theorem C2_checkUpkeep_iff (s : Raffle) (now : Nat)
    (h : s.s_lastTimeStamp ≤ now) :
    (checkUpkeep s now = true ↔
      (s.s_raffleState = .OPEN ∧ s.s_lastTimeStamp + s.i_interval < now ∧
        0 < s.s_players.length ∧ 0 < s.balance)) := by
  simp only [checkUpkeep, decide_eq_true_eq]
  constructor
  · rintro ⟨h1, h2, h3, h4⟩
    exact ⟨h1, by omega, h3, h4⟩
  · rintro ⟨h1, h2, h3, h4⟩
    exact ⟨h1, by omega, h3, h4⟩

/-- A concrete OPEN state with one player and a funded pool. -/
def w2State : Raffle :=
  { i_entranceFee := 100, i_interval := 30, s_players := [7],
    s_recentWinner := 0, s_raffleState := .OPEN,
    s_lastTimeStamp := 0, balance := 100 }

/-- C2 witness: the equivalence instantiated at a concrete state and
clock. -/
theorem C2_checkUpkeep_iff_witness :
    checkUpkeep w2State 31 = true ↔
      (w2State.s_raffleState = .OPEN ∧
        w2State.s_lastTimeStamp + w2State.i_interval < 31 ∧
        0 < w2State.s_players.length ∧ 0 < w2State.balance) :=
  C2_checkUpkeep_iff w2State 31 (by decide)

end RaffleContract

namespace RaffleContract

/-- The state reached from deployment by two entries and a trigger whose
oracle request returned id 5: CALCULATING with players [7, 8], pool 200,
and outstanding request 5. -/
def c3Reached : Raffle :=
  runTrace (deployRaffle 100 30 0)
    [.enter 7 100, .enter 8 100, .trigger 31 5]

/-- C3 counterexample: with outstanding request 5, delivering for request
id 6 is NOT rejected — the resolve succeeds and mutates the state, because
`fulfillRandomWords` ignores its requestId argument. -/
theorem C3_wrong_requestId_not_rejected :
    (fulfillRandomWords c3Reached 6 [3] true 40).isOk = true ∧
    stepRaffle c3Reached (.resolve 6 [3] true 40) ≠ c3Reached := by
  decide

/-- C3 amended: the contract records no outstanding request id and
`fulfillRandomWords` ignores its requestId parameter entirely — it behaves
identically for every requestId, matching or not.  Rejection of unknown or
already-fulfilled requests is left to the VRF coordinator outside this
contract. -/
theorem C3_fulfill_ignores_requestId (s : Raffle) (rid rid' : Nat)
    (words : List Nat) (ok : Bool) (now : Nat) :
    fulfillRandomWords s rid words ok now =
      fulfillRandomWords s rid' words ok now :=
  rfl

/-- C4: in a CALCULATING state with at least one player, if the payout
transfer fails the whole resolve reverts with TransferFailed and no state
mutation is retained — the post-interaction state equals the
pre-interaction state (so the winner is not recorded, players are not
cleared, the timestamp is unchanged and the phase is still CALCULATING),
leaving the round retriable. -/
theorem C4_transfer_failure_atomic (s : Raffle) (rid R now : Nat)
    (rest : List Nat)
    (_hcalc : s.s_raffleState = .CALCULATING)
    (hp : 0 < s.s_players.length) :
    fulfillRandomWords s rid (R :: rest) false now =
      .error .transferFailed ∧
    stepRaffle s (.resolve rid (R :: rest) false now) = s := by
  have h1 : fulfillRandomWords s rid (R :: rest) false now =
      .error .transferFailed := by
    simp only [fulfillRandomWords]
    rw [dif_neg (Nat.pos_iff_ne_zero.mp hp)]
    rfl
  exact ⟨h1, by simp only [stepRaffle, h1]⟩

/-- C4 witness: the failed transfer at a concrete CALCULATING state. -/
theorem C4_transfer_failure_atomic_witness :
    fulfillRandomWords w1State 1 [5] false 40 = .error .transferFailed ∧
    stepRaffle w1State (.resolve 1 [5] false 40) = w1State :=
  C4_transfer_failure_atomic w1State 1 5 40 [] rfl (by decide)

/-- C5 counterexample: entering during CALCULATING with an amount below
the fee (0 < fee 100) reverts with NotEnoughETHEntered, not with NotOpen —
the fee check precedes the phase check, so the claim that a CALCULATING
entry fails with RoundInProgress "regardless of the amount paid" is
false. -/
theorem C5_calculating_low_amount :
    enterRaffle w1State 7 0 = .error .notEnoughETHEntered ∧
    enterRaffle w1State 7 0 ≠ .error .notOpen := by
  refine ⟨rfl, fun h => ?_⟩
  rw [show enterRaffle w1State 7 0 =
        Except.error Revert.notEnoughETHEntered from rfl] at h
  simp at h

/-- C5 amended: entering with exactly the entrance fee while OPEN
succeeds; entering with one unit below the fee (for a positive fee)
reverts with NotEnoughETHEntered in any phase; and entering while
CALCULATING reverts with NotOpen provided the amount is at least the
entrance fee (otherwise the fee check fires first). -/
theorem C5_enter_boundary (s : Raffle) (sender amount : Nat) :
    (s.s_raffleState = .OPEN →
      (enterRaffle s sender s.i_entranceFee).isOk = true) ∧
    (0 < s.i_entranceFee →
      enterRaffle s sender (s.i_entranceFee - 1) =
        .error .notEnoughETHEntered) ∧
    (s.s_raffleState = .CALCULATING → s.i_entranceFee ≤ amount →
      enterRaffle s sender amount = .error .notOpen) := by
  refine ⟨?_, ?_, ?_⟩
  · intro hopen
    unfold enterRaffle
    rw [if_neg (lt_irrefl s.i_entranceFee), if_neg (by simp [hopen])]
    rfl
  · intro hfee
    unfold enterRaffle
    rw [if_pos (by omega)]
  · intro hcalc hle
    unfold enterRaffle
    rw [if_neg (by omega), if_pos hcalc]

/-- C5 witness: the three amended branches at concrete states (fee 100;
`w2State` is OPEN, `w1State` is CALCULATING). -/
theorem C5_enter_boundary_witness :
    (enterRaffle w2State 7 100).isOk = true ∧
    enterRaffle w2State 7 99 = .error .notEnoughETHEntered ∧
    enterRaffle w1State 7 100 = .error .notOpen :=
  ⟨(C5_enter_boundary w2State 7 0).1 rfl,
   (C5_enter_boundary w2State 7 0).2.1 (by decide),
   (C5_enter_boundary w1State 7 100).2.2 rfl (by decide)⟩

/-- C6: whenever the readiness check is false, `performUpkeep` reverts
with UpkeepNotNeeded carrying exactly the pool balance, the player count,
the numeric phase and the elapsed time; the randomness oracle is not
contacted (second component false), and the state is unchanged. -/
theorem C6_performUpkeep_not_ready (s : Raffle) (now rid : Nat)
    (h : checkUpkeep s now = false) :
    performUpkeep s now rid =
      (.error (.upkeepNotNeeded s.balance s.s_players.length
        s.s_raffleState.toUint (now - s.s_lastTimeStamp)), false) ∧
    stepRaffle s (.trigger now rid) = s := by
  have h1 : performUpkeep s now rid =
      (.error (.upkeepNotNeeded s.balance s.s_players.length
        s.s_raffleState.toUint (now - s.s_lastTimeStamp)), false) := by
    unfold performUpkeep
    rw [if_neg (by simp [h])]
  refine ⟨h1, ?_⟩
  simp only [stepRaffle, h1]

/-- C6 witness: a freshly deployed raffle (zero players) refuses the
trigger with the four diagnostic values and an untouched state. -/
theorem C6_performUpkeep_not_ready_witness :
    performUpkeep (deployRaffle 100 30 0) 31 5 =
      (.error (.upkeepNotNeeded 0 0 0 31), false) ∧
    stepRaffle (deployRaffle 100 30 0) (.trigger 31 5) =
      deployRaffle 100 30 0 :=
  C6_performUpkeep_not_ready (deployRaffle 100 30 0) 31 5 (by decide)

end RaffleContract

namespace RaffleContract

/-- One interaction preserves the invariant "CALCULATING implies a
non-empty player list". -/
theorem stepRaffle_calcInv (s : Raffle) (a : Act)
    (ih : s.s_raffleState = .CALCULATING → 0 < s.s_players.length) :
    (stepRaffle s a).s_raffleState = .CALCULATING →
      0 < (stepRaffle s a).s_players.length := by
  cases a with
  | enter sender value =>
    simp only [stepRaffle]
    cases he : enterRaffle s sender value with
    | ok s' =>
      intro _
      have hs := enterRaffle_ok_eq s sender value s' he
      subst hs
      simp
    | error e => exact ih
  | trigger now rid =>
    simp only [stepRaffle]
    cases hp : (performUpkeep s now rid).1 with
    | ok s' =>
      intro _
      obtain ⟨hs, hc⟩ := performUpkeep_ok_eq s now rid s' hp
      subst hs
      simp only [checkUpkeep, decide_eq_true_eq] at hc
      simpa using hc.2.2.1
    | error e => exact ih
  | resolve rid words ok now =>
    simp only [stepRaffle]
    cases hf : fulfillRandomWords s rid words ok now with
    | ok pr =>
      intro h
      exfalso
      obtain ⟨s', p⟩ := pr
      have hs := (fulfill_ok_char s rid words ok now s' p hf).1
      subst hs
      simp at h
    | error e => exact ih

/-- Every state reachable from deployment satisfies: CALCULATING implies
a non-empty player list. -/
theorem reachable_calcInv (fee interval t0 : Nat) (s : Raffle)
    (hreach : Reachable (deployRaffle fee interval t0) s) :
    s.s_raffleState = .CALCULATING → 0 < s.s_players.length := by
  induction hreach with
  | refl => intro h; exact absurd h (by simp [deployRaffle])
  | step a _ ih => exact stepRaffle_calcInv _ a ih

/-- C7: for every reachable state, CALCULATING implies the player list is
non-empty (the trigger only fires when there is a player and no entry or
resolve can empty the list while staying in CALCULATING), so resolving
from such a state never hits the modulo-by-zero panic. -/
theorem C7_calculating_players_nonempty (fee interval t0 : Nat)
    (s : Raffle)
    (hreach : Reachable (deployRaffle fee interval t0) s)
    (hcalc : s.s_raffleState = .CALCULATING)
    (rid R now : Nat) (rest : List Nat) (ok : Bool) :
    0 < s.s_players.length ∧
    fulfillRandomWords s rid (R :: rest) ok now ≠
      .error .panicDivModZero := by
  have hpos := reachable_calcInv fee interval t0 s hreach hcalc
  refine ⟨hpos, ?_⟩
  simp only [fulfillRandomWords]
  rw [dif_neg (Nat.pos_iff_ne_zero.mp hpos)]
  cases ok <;> simp

/-- C7 witness: the state reached by one entry and one trigger is
CALCULATING, keeps its player, and resolves without a division panic. -/
theorem C7_calculating_players_nonempty_witness :
    0 < (stepRaffle (stepRaffle (deployRaffle 100 30 0) (.enter 7 100))
          (.trigger 31 5)).s_players.length ∧
    fulfillRandomWords
        (stepRaffle (stepRaffle (deployRaffle 100 30 0) (.enter 7 100))
          (.trigger 31 5)) 5 [3] true 40 ≠
      .error .panicDivModZero :=
  C7_calculating_players_nonempty 100 30 0 _
    (Reachable.step (.trigger 31 5)
      (Reachable.step (.enter 7 100) Reachable.refl))
    (by decide) 5 3 40 [] true

/-- C8: `getPlayer` reverts when the player list is empty (the require
message) and when the index is at or beyond the list length (the array
bounds panic); for an in-range index it returns `players[i]`.  Its Lean
type `Raffle → Nat → Except Revert Nat` is the statement that it has no
side effects. -/
theorem C8_getPlayer_spec (s : Raffle) (i : Nat) :
    (s.s_players = [] → getPlayer s i = .error .requireNoPlayers) ∧
    (s.s_players ≠ [] → s.s_players.length ≤ i →
      getPlayer s i = .error .panicArrayOOB) ∧
    (∀ h : i < s.s_players.length,
      getPlayer s i = .ok (s.s_players.get ⟨i, h⟩)) := by
  refine ⟨?_, ?_, ?_⟩
  · intro he
    unfold getPlayer
    rw [if_pos (by simp [he])]
  · intro hne hle
    unfold getPlayer
    rw [if_neg (by simp [hne]), dif_neg (by omega)]
  · intro h
    unfold getPlayer
    rw [if_neg (by omega), dif_pos h]

/-- C8 witness: the empty raffle rejects index 5, the three-player state
rejects index 9 and returns player 8 at index 1. -/
theorem C8_getPlayer_spec_witness :
    getPlayer (deployRaffle 100 30 0) 5 = .error .requireNoPlayers ∧
    getPlayer w1State 9 = .error .panicArrayOOB ∧
    getPlayer w1State 1 = .ok 8 :=
  ⟨(C8_getPlayer_spec (deployRaffle 100 30 0) 5).1 rfl,
   (C8_getPlayer_spec w1State 9).2.1 (by decide) (by decide),
   (C8_getPlayer_spec w1State 1).2.2 (by decide)⟩

end RaffleContract

namespace RaffleContract

/-- Along any trace, the stored `s_recentWinner` is the recipient of the
most recent successful resolve, or the starting value if none
occurred. -/
theorem runTrace_recentWinner (acts : List Act) (s : Raffle) :
    (runTrace s acts).s_recentWinner =
      (lastWinner s acts).getD s.s_recentWinner := by
  induction acts generalizing s with
  | nil => rfl
  | cons a rest ih =>
    simp only [runTrace, lastWinner]
    rw [ih (stepRaffle s a)]
    cases hw : lastWinner (stepRaffle s a) rest with
    | some w => rfl
    | none =>
      simp only [Option.getD_none]
      cases a with
      | enter sender value =>
        simp only [stepRaffle]
        cases he : enterRaffle s sender value with
        | ok s' =>
          have hs := enterRaffle_ok_eq s sender value s' he
          subst hs
          rfl
        | error e => rfl
      | trigger now rid =>
        simp only [stepRaffle]
        cases hp : (performUpkeep s now rid).1 with
        | ok s' =>
          have hs := (performUpkeep_ok_eq s now rid s' hp).1
          subst hs
          rfl
        | error e => rfl
      | resolve rid words ok now =>
        simp only [stepRaffle]
        cases hf : fulfillRandomWords s rid words ok now with
        | ok pr =>
          obtain ⟨s', p⟩ := pr
          simpa using fulfill_ok_recentWinner s rid words ok now s' p hf
        | error e => rfl

/-- C9: `getRecentWinner` is total, so querying it never fails; starting
from deployment (where `s_recentWinner` is the default zero address) and
after any sequence of interactions, it returns the winner recorded by the
most recent successful resolve, or the zero address if no round has
completed yet — entries and triggers of the next round never reset it. -/
theorem C9_recentWinner_history (fee interval t0 : Nat)
    (acts : List Act) :
    getRecentWinner (runTrace (deployRaffle fee interval t0) acts) =
      (lastWinner (deployRaffle fee interval t0) acts).getD 0 :=
  runTrace_recentWinner acts (deployRaffle fee interval t0)

/-- C10: a successful entry appends exactly the sender to the end of the
player list and leaves the phase, the recent winner, the last round
timestamp and the immutable configuration unchanged (the pool balance
grows by the paid amount). -/
theorem C10_enter_frame (s : Raffle) (sender value : Nat) (s' : Raffle)
    (h : enterRaffle s sender value = .ok s') :
    s'.s_players = s.s_players ++ [sender] ∧
    s'.s_raffleState = s.s_raffleState ∧
    s'.s_recentWinner = s.s_recentWinner ∧
    s'.s_lastTimeStamp = s.s_lastTimeStamp ∧
    s'.i_entranceFee = s.i_entranceFee ∧
    s'.i_interval = s.i_interval := by
  have hs := enterRaffle_ok_eq s sender value s' h
  subst hs
  exact ⟨rfl, rfl, rfl, rfl, rfl, rfl⟩

/-- C10 witness: entering the one-player OPEN state with the exact fee
appends the sender and touches nothing else. -/
theorem C10_enter_frame_witness :
    ({ i_entranceFee := 100, i_interval := 30, s_players := [7, 11],
       s_recentWinner := 0, s_raffleState := .OPEN,
       s_lastTimeStamp := 0, balance := 200 } : Raffle).s_players =
        w2State.s_players ++ [11] ∧
    ({ i_entranceFee := 100, i_interval := 30, s_players := [7, 11],
       s_recentWinner := 0, s_raffleState := .OPEN,
       s_lastTimeStamp := 0, balance := 200 } : Raffle).s_raffleState =
        w2State.s_raffleState ∧
    ({ i_entranceFee := 100, i_interval := 30, s_players := [7, 11],
       s_recentWinner := 0, s_raffleState := .OPEN,
       s_lastTimeStamp := 0, balance := 200 } : Raffle).s_recentWinner =
        w2State.s_recentWinner ∧
    ({ i_entranceFee := 100, i_interval := 30, s_players := [7, 11],
       s_recentWinner := 0, s_raffleState := .OPEN,
       s_lastTimeStamp := 0, balance := 200 } : Raffle).s_lastTimeStamp =
        w2State.s_lastTimeStamp ∧
    ({ i_entranceFee := 100, i_interval := 30, s_players := [7, 11],
       s_recentWinner := 0, s_raffleState := .OPEN,
       s_lastTimeStamp := 0, balance := 200 } : Raffle).i_entranceFee =
        w2State.i_entranceFee ∧
    ({ i_entranceFee := 100, i_interval := 30, s_players := [7, 11],
       s_recentWinner := 0, s_raffleState := .OPEN,
       s_lastTimeStamp := 0, balance := 200 } : Raffle).i_interval =
        w2State.i_interval :=
  C10_enter_frame w2State 11 100 _ rfl

end RaffleContract
